import Mathlib

/-
Verification of the enterprise digital-twin reasoning workflow
(twin_langgraph.py) and the turn-taking meeting orchestrator
(agents.py / agent_metadata.py / models.py) of the C-suite repository.

External collaborators (the Gemini text generator and the ChromaDB vector
store) are modelled as oracles: every generation call is an
`Except String String` (error = raised exception, ok = returned text) and
every vector query is a `QueryOutcome`.  Machine floats of the source are
modelled as exact rationals; Python `int()` truncation toward zero is
`pyInt` and the spec-side "round to nearest integer" is `specRound`.
-/

set_option maxRecDepth 4000

/-- Substring search on character lists: true when `needle` occurs
contiguously inside the first argument.  Models the Python `in` operator
on strings. -/
def listContains : List Char → List Char → Bool
  | [], needle => needle.isEmpty
  | c :: t, needle => List.isPrefixOf needle (c :: t) || listContains t needle

/-- Substring test on strings, models Python `needle in s`. -/
def containsSubstr (s pat : String) : Bool :=
  listContains s.data pat.data

/-- Lower-casing of a string, models Python `str.lower()` (all needles in the
source are ASCII, where `Char.toLower` agrees with Python). -/
def strLower (s : String) : String :=
  String.mk (s.data.map Char.toLower)

/-- Dictionary get with default, models Python `d.get(key, default)` for
string-valued profile dictionaries. -/
def pget (m : List (String × String)) (k dflt : String) : String :=
  (m.lookup k).getD dflt

/-- Python `int()` applied to a rational: truncation toward zero. -/
def pyInt (q : ℚ) : ℤ :=
  if 0 ≤ q then ⌊q⌋ else ⌈q⌉

/-- Spec-side rounding ("rounded to the nearest integer").  All concrete
values this development evaluates it on are not ties, so the choice of
tie-breaking (here: half away from zero upward) is immaterial. -/
def specRound (q : ℚ) : ℤ :=
  ⌊q + 1 / 2⌋

/-- Mean of a list of rationals (distance scores). -/
def ratAvg (l : List ℚ) : ℚ :=
  l.sum / (l.length : ℚ)

/-- State dictionary of the twin workflow, mirroring the `TwinState`
TypedDict of twin_langgraph.py.  Nested profile dictionaries are flattened
to string association lists; they feed only prompt text, which the spec
excludes. -/
structure TwinState where
  messages : List String
  user_query : String
  communication_style : String
  business_context : String
  decision_history : String
  profile_data : List (String × String)
  low_confidence : Bool
  action_needed : Bool
  feedback_loop : Bool
  style_confidence : ℤ
  context_confidence : ℤ
  decision_confidence : ℤ
  overall_confidence : ℤ
  proposal : String
  critique : String
  final_response : String
  twin_id : String
  twin_profile : List (String × String)
  escalated : Bool

/-- Outcome of one ChromaDB `collection.query` call: either the call raised,
or it returned a document list together with an optional distance list
(the source checks `results.get('distances') and results['distances'][0]`,
so `none` and `some []` both count as unscored). -/
inductive QueryOutcome where
  | throws : String → QueryOutcome
  | result : List String → Option (List ℚ) → QueryOutcome

/-- Environment of one run of `retrieve_node`: whether `get_twin_collections`
succeeds (the outer try), and the outcome of each of the three partition
queries (style, business context, decision history). -/
structure RetrieveOracle where
  collectionsOk : Bool
  styleQ : QueryOutcome
  contextQ : QueryOutcome
  decisionQ : QueryOutcome

/-- Text and confidence produced for one partition inside `retrieve_node`
(twin_langgraph.py lines 103-182): a raised query or an empty document list
yields `("", 0)`; scored documents yield `int((1 - min(avg, 1.0)) * 100)`;
unscored documents yield the partition default (50 / 40 / 30). -/
def partitionResult (dflt : ℤ) : QueryOutcome → String × ℤ
  | QueryOutcome.throws _ => ("", 0)
  | QueryOutcome.result docs dists =>
    if docs.isEmpty then ("", 0)
    else
      (String.intercalate "\n" docs,
        match dists with
        | some (d :: ds) => pyInt ((1 - min (ratAvg (d :: ds)) 1) * 100)
        | _ => dflt)

/-- Stage 1 of the workflow, `retrieve_node` (twin_langgraph.py lines
90-208).  On total failure of `get_twin_collections` every retrieval field
is zeroed and `low_confidence` is forced true; otherwise each partition is
filled from its query outcome and the overall confidence is
`int(sum / len)` of the three partition confidences. -/
def retrieve_node (o : RetrieveOracle) (s : TwinState) : TwinState :=
  if o.collectionsOk then
    let sp := partitionResult 50 o.styleQ
    let cp := partitionResult 40 o.contextQ
    let dp := partitionResult 30 o.decisionQ
    let overall := pyInt (((sp.2 + cp.2 + dp.2 : ℤ) : ℚ) / 3)
    { s with
      communication_style := sp.1, style_confidence := sp.2,
      business_context := cp.1, context_confidence := cp.2,
      decision_history := dp.1, decision_confidence := dp.2,
      overall_confidence := overall,
      low_confidence := decide (overall < 30) }
  else
    { s with
      communication_style := "", business_context := "", decision_history := "",
      style_confidence := 0, context_confidence := 0, decision_confidence := 0,
      overall_confidence := 0, low_confidence := true }

/-- Stage 2, `personalize_node` (twin_langgraph.py lines 211-239): rewrites
`communication_style` into a style prompt, falling back to profile fields
when no style text was retrieved. -/
def personalize_node (s : TwinState) : TwinState :=
  let profile := s.twin_profile
  let style_prompt :=
    if s.communication_style = "" then
      "Apply this communication style (from profile):\nTone: " ++
        pget profile "toneStyle" "Professional" ++
        "\nFormality: Medium-High\nRisk Tolerance: " ++
        pget profile "riskTolerance" "Balanced" ++
        "\nCore Values: " ++ pget profile "coreValues" "Excellence and Innovation" ++
        "\n\nNote: Limited style data available - using general professional approach.\n"
    else
      "Apply this communication style (learned from actual emails):\n" ++
        s.communication_style ++
        "\n\nTone: " ++ pget profile "toneStyle" "Professional" ++
        "\nRisk Tolerance: " ++ pget profile "riskTolerance" "Balanced" ++ "\n"
  { s with communication_style := style_prompt }

/-- Outcomes of the three generation calls made by one pass of
`decision_node` (proposal, critique, moderator). -/
structure GenResults where
  proposalR : Except String String
  critiqueR : Except String String
  moderatorR : Except String String

/-- Stage 3, `decision_node` (twin_langgraph.py lines 242-355): each of the
three generation steps falls back to a literal string when its call raises;
then `feedback_loop` and `action_needed` are recomputed from the critique
text and the context confidence. -/
def decision_node (g : GenResults) (s : TwinState) : TwinState :=
  let proposal :=
    match g.proposalR with
    | Except.ok t => t
    | Except.error _ => "Unable to generate proposal due to system error."
  let critique :=
    match g.critiqueR with
    | Except.ok t => t
    | Except.error _ => "Unable to generate critique."
  let finalResponse :=
    match g.moderatorR with
    | Except.ok t => t
    | Except.error _ => "Unable to generate final response."
  { s with
    proposal := proposal, critique := critique, final_response := finalResponse,
    feedback_loop :=
      containsSubstr (strLower critique) "significant risk" ||
        containsSubstr (strLower critique) "major concern",
    action_needed :=
      containsSubstr (strLower critique) "need more data" ||
        decide (s.context_confidence < 20) }

/-- Banner prepended by `escalate_node` on its success path
(twin_langgraph.py lines 398-409). -/
def escalationNote (overall : ℤ) : String :=
  "\n\n---\n⚠️ **Limited Data Available** (Confidence: " ++ toString overall ++
    "%)\n\nTo improve accuracy, consider connecting:\n- Email account (for communication style)\n- CRM system (for business context)\n- Upload past decisions/documents\n\nMeanwhile, here\x27s general guidance:\n"

/-- Stage 4, `escalate_node` (twin_langgraph.py lines 358-419): on success
the response is the escalation banner plus the generated guidance; when the
generation call raises, a literal fallback naming the error is substituted.
Both paths set `escalated`. -/
def escalate_node (g : Except String String) (s : TwinState) : TwinState :=
  match g with
  | Except.ok t =>
    { s with
      final_response := escalationNote s.overall_confidence ++ "\n" ++ t,
      escalated := true }
  | Except.error e =>
    { s with
      final_response :=
        "Unable to provide guidance. Please connect data sources to improve twin accuracy. (Error: " ++
          e ++ ")",
      escalated := true }

/-- Disclaimer appended by `generate_node` when the overall confidence is
below 70 (twin_langgraph.py lines 428-430). -/
def confidenceNote (overall : ℤ) : String :=
  if overall < 70 then
    "\n\n💡 **Confidence: " ++ toString overall ++
      "%** - Consider connecting more data sources for higher accuracy."
  else ""

/-- Stage 5, `generate_node` (twin_langgraph.py lines 422-435). -/
def generate_node (s : TwinState) : TwinState :=
  { s with
    final_response := s.final_response ++ confidenceNote s.overall_confidence,
    escalated := false }

/-- Result of the routing function after the decision node. -/
inductive Route where
  | escalate
  | generate
  | decision
deriving DecidableEq

/-- Routing function `route_after_decision` (twin_langgraph.py lines
439-445): low confidence wins over the feedback loop; otherwise a set
feedback flag re-enters the decision node. -/
def route_after_decision (s : TwinState) : Route :=
  if s.low_confidence then Route.escalate
  else if s.feedback_loop then Route.decision
  else Route.generate

/-- Nodes of the LangGraph workflow built by `build_twin_graph`
(twin_langgraph.py lines 449-480), plus a `done` node standing for END. -/
inductive Node where
  | retrieve
  | personalize
  | decision
  | escalate
  | generate
  | done
deriving DecidableEq

/-- Environment of one invocation of the twin workflow: the retrieval
outcomes, the generation outcomes of the k-th pass through the decision
node, and the outcome of the escalation generation call. -/
structure Oracle where
  retrieveO : RetrieveOracle
  genO : ℕ → GenResults
  escGen : Except String String

/-- One transition of the compiled graph.  The configuration carries the
current node, the state, and the number of completed decision passes (the
counter exists only to index the oracle; the source keeps no such counter).
Edges follow `build_twin_graph`: START → retrieve → personalize → decision,
then `route_after_decision` picks escalate, generate, or decision again,
and escalate / generate go to END. -/
def step (o : Oracle) : Node × TwinState × ℕ → Node × TwinState × ℕ
  | (Node.retrieve, s, k) => (Node.personalize, retrieve_node o.retrieveO s, k)
  | (Node.personalize, s, k) => (Node.decision, personalize_node s, k)
  | (Node.decision, s, k) =>
    let s2 := decision_node (o.genO k) s
    match route_after_decision s2 with
    | Route.escalate => (Node.escalate, s2, k + 1)
    | Route.decision => (Node.decision, s2, k + 1)
    | Route.generate => (Node.generate, s2, k + 1)
  | (Node.escalate, s, k) => (Node.done, escalate_node o.escGen s, k)
  | (Node.generate, s, k) => (Node.done, generate_node s, k)
  | (Node.done, s, k) => (Node.done, s, k)

/-- Configuration after n graph transitions from a given configuration. -/
def runN (o : Oracle) (c : Node × TwinState × ℕ) : ℕ → Node × TwinState × ℕ
  | 0 => c
  | n + 1 => step o (runN o c n)

/-- Initial state built by `run_twin_conversation` (twin_langgraph.py lines
497-517): every text field empty, every confidence 0, every flag false. -/
def initState (twin_id : String) (twin_profile : List (String × String))
    (user_query : String) : TwinState :=
  { messages := [], user_query := user_query, communication_style := "",
    business_context := "", decision_history := "", profile_data := [],
    low_confidence := false, action_needed := false, feedback_loop := false,
    style_confidence := 0, context_confidence := 0, decision_confidence := 0,
    overall_confidence := 0, proposal := "", critique := "", final_response := "",
    twin_id := twin_id, twin_profile := twin_profile, escalated := false }

/-- Initial configuration of the graph for one invocation. -/
def initConfig (twin_id : String) (twin_profile : List (String × String))
    (user_query : String) : Node × TwinState × ℕ :=
  (Node.retrieve, initState twin_id twin_profile user_query, 0)

/-- Continuation of the workflow from a state just produced by the decision
node: route, then run the chosen terminal node, looping through further
decision passes while the router keeps choosing `decision`.  The fuel bounds
the number of additional decision passes; `none` means the fuel ran out
while the router still demanded another pass. -/
def afterDecide (o : Oracle) : ℕ → ℕ → TwinState → Option TwinState
  | 0, _, s =>
    match route_after_decision s with
    | Route.escalate => some (escalate_node o.escGen s)
    | Route.generate => some (generate_node s)
    | Route.decision => none
  | f + 1, k, s =>
    match route_after_decision s with
    | Route.escalate => some (escalate_node o.escGen s)
    | Route.generate => some (generate_node s)
    | Route.decision => afterDecide o f (k + 1) (decision_node (o.genO k) s)

/-- Environment assumption for the never-empty-response property: when a
generation call succeeds, the text it returns is non-empty (generation
FAILURES are unconstrained and may occur at every step). -/
def genOk (o : Oracle) : Prop :=
  (∀ k t, (o.genO k).proposalR = Except.ok t → t ≠ "") ∧
    (∀ k t, (o.genO k).critiqueR = Except.ok t → t ≠ "") ∧
    (∀ k t, (o.genO k).moderatorR = Except.ok t → t ≠ "") ∧
    (∀ t, o.escGen = Except.ok t → t ≠ "")

/-- Every distance score reported by a query outcome is non-negative
(ChromaDB distances are non-negative). -/
def distsNonneg : QueryOutcome → Prop
  | QueryOutcome.result _ (some l) => ∀ d ∈ l, 0 ≤ d
  | _ => True

/-- A partition query fails in the sense of the spec: the call raised, or
it returned zero documents. -/
def queryFails : QueryOutcome → Bool
  | QueryOutcome.throws _ => true
  | QueryOutcome.result docs _ => docs.isEmpty

/-- The distance field counts as absent: either no distances key, or an
empty first distance list (the source treats both as falsy). -/
def noScores : Option (List ℚ) → Bool
  | some (_ :: _) => false
  | _ => true

/-- Keys of the `PERSONAS` dictionary (constants.py).  The metadata payload
(company, role, biography, pdf) is prompt-only configuration excluded from
the core; only key membership is load-bearing for validation. -/
def PERSONAS_keys : List String :=
  ["Sam_Altman", "Jensen_Huang", "Andrew_Ng", "Demis_Hassabis", "Fei_Fei_Li"]

/-- Prefix test on strings, models Python `str.startswith`. -/
def strStartsWith (s pre : String) : Bool :=
  List.isPrefixOf pre.data s.data

/-- Control flow of `get_agent_metadata` (agent_metadata.py lines 52-99).
The returned metadata dict feeds prompt text only, so it is modelled as
`Unit`; what is load-bearing is when the function raises: it raises
`ValueError` exactly when the agent is neither a `PERSONAS` key nor a
`twin_`-prefixed identifier (for `twin_` agents a database failure is
caught internally and replaced by a generic fallback dict, never raised). -/
def get_agent_metadata (agent : String) : Except String Unit :=
  if PERSONAS_keys.contains agent then Except.ok ()
  else if strStartsWith agent "twin_" then Except.ok ()
  else Except.error ("Invalid agent: " ++ agent)

/-- True when `get_agent_metadata` does not raise for this identifier. -/
def agentValid (agent : String) : Bool :=
  match get_agent_metadata agent with
  | Except.ok _ => true
  | Except.error _ => false

/-- Generation environment of the meeting orchestrator: persona and turn
index to the outcome of that persona-turn generation call. -/
def MeetingOracle : Type :=
  String → ℕ → Except String String

/-- Recommendation text produced by one run of the per-persona node built
by `create_agent_node` (agents.py lines 68-181): the generated text, or the
literal fallback when anything in the node raises. -/
def agentRec (o : MeetingOracle) (p : String) (turn : ℕ) : String :=
  match o p turn with
  | Except.ok t => t
  | Except.error _ => "Fallback recommendation for " ++ p

/-- Recommendations mapping: persona identifier to latest text. -/
abbrev RecMap : Type := List (String × String)

/-- Merge function for the `recommendations` channel (models.py lines
74-76, Python dict union with right precedence): keys of the left mapping
keep their position with right values overriding, then new right keys are
appended. -/
def merge_dicts (left right : RecMap) : RecMap :=
  left.map (fun kv =>
    match right.lookup kv.1 with
    | some v => (kv.1, v)
    | none => kv) ++
    right.filter (fun kv => (left.lookup kv.1).isNone)

/-- One recommendation round: every persona node runs (LangGraph fan-out)
and each partial update is merged into the recommendations channel. -/
def roundStep (o : MeetingOracle) (agents : List String) (turn : ℕ)
    (recs : RecMap) : RecMap :=
  agents.foldl (fun m p => merge_dicts m [(p, agentRec o p turn)]) recs

/-- Loop of the meeting graph (agents.py lines 246-274): a round always
runs, then `increment_turn` bumps the counter and `decide_to_continue`
loops back while `current_turn < turns` (a do-while).  Returns the final
recommendations, the final turn counter, and the number of per-persona
node executions.  The fuel only bounds recursion depth; with fuel ≥ turns
the cut-off branch is unreachable. -/
def meetingGo (o : MeetingOracle) (agents : List String) (turns : ℕ) :
    ℕ → ℕ → RecMap → ℕ → RecMap × ℕ × ℕ
  | 0, ct, recs, calls =>
    (roundStep o agents ct recs, ct + 1, calls + agents.length)
  | fuel + 1, ct, recs, calls =>
    let recs2 := roundStep o agents ct recs
    let calls2 := calls + agents.length
    if ct + 1 < turns then meetingGo o agents turns fuel (ct + 1) recs2 calls2
    else (recs2, ct + 1, calls2)

/-- Observable result of one call to `run_meeting` (agents.py lines
219-315). -/
structure MeetingRun where
  error : Option String
  rounds : ℕ
  recommendCalls : ℕ
  persisted : Option RecMap
  recommendations : RecMap

/-- The meeting orchestrator `run_meeting` (agents.py lines 219-315).  An
empty agents argument defaults to the `PERSONAS` keys; node construction
validates every agent through `get_agent_metadata` and the first
`ValueError` rejects the whole run before the graph is invoked (zero node
executions, nothing persisted); otherwise the do-while round loop runs and
the final recommendations are persisted under a fresh run id. -/
def run_meeting (o : MeetingOracle) (turns : ℕ) (agents0 : List String) :
    MeetingRun :=
  let agents := if agents0.isEmpty then PERSONAS_keys else agents0
  match agents.find? (fun a => !agentValid a) with
  | some bad =>
    { error := some ("Invalid agent identifier: " ++ bad), rounds := 0,
      recommendCalls := 0, persisted := none, recommendations := [] }
  | none =>
    let res := meetingGo o agents turns turns 0 [] 0
    { error := none, rounds := res.2.1, recommendCalls := res.2.2,
      persisted := some res.1, recommendations := res.1 }

/-- Environment exhibiting the unbounded feedback loop: retrieval succeeds
with unscored documents in all three partitions (confidences 50 / 40 / 30,
overall 40, so no low-confidence escalation), and every decision pass
produces a critique containing "significant risk". -/
def c1Oracle : Oracle :=
  { retrieveO :=
      { collectionsOk := true,
        styleQ := QueryOutcome.result ["Concise, direct executive tone."] none,
        contextQ := QueryOutcome.result ["Pipeline at 45M across 230 deals."] none,
        decisionQ := QueryOutcome.result ["Chose organic growth in 2024."] none },
    genO := fun _ =>
      { proposalR := Except.ok "Acquire the competitor now.",
        critiqueR := Except.ok "This plan carries significant risk for cash flow.",
        moderatorR := Except.ok "Proceed, but stage the payments." },
    escGen := Except.ok "General guidance." }

/-- Initial configuration used for the loop-divergence run. -/
def c1Init : Node × TwinState × ℕ :=
  initConfig "twin_demo" [] "Should we acquire our competitor?"

/-- Environment for the C5 counterexample: total retrieval failure (all
confidences zero, so overall is below 30) and a failing escalation
generation call. -/
def c5Oracle : Oracle :=
  { retrieveO :=
      { collectionsOk := false, styleQ := QueryOutcome.throws "db down",
        contextQ := QueryOutcome.throws "db down",
        decisionQ := QueryOutcome.throws "db down" },
    genO := fun _ =>
      { proposalR := Except.error "quota", critiqueR := Except.error "quota",
        moderatorR := Except.error "quota" },
    escGen := Except.error "quota exhausted" }

/-- Environment for the C5 witness: total retrieval failure but a
succeeding escalation generation call. -/
def w5Oracle : Oracle :=
  { retrieveO :=
      { collectionsOk := false, styleQ := QueryOutcome.throws "offline",
        contextQ := QueryOutcome.throws "offline",
        decisionQ := QueryOutcome.throws "offline" },
    genO := fun _ =>
      { proposalR := Except.error "e", critiqueR := Except.error "e",
        moderatorR := Except.error "e" },
    escGen := Except.ok "Focus on fundamentals." }

/-- Retrieval environment for the C6 witness: collections open, style query
raises, context query returns zero documents, decision query raises. -/
def w6Oracle : RetrieveOracle :=
  { collectionsOk := true, styleQ := QueryOutcome.throws "conn reset",
    contextQ := QueryOutcome.result [] none,
    decisionQ := QueryOutcome.throws "name error" }

/-- Retrieval environment for the C6 witness, total-failure case. -/
def w6bOracle : RetrieveOracle :=
  { collectionsOk := false, styleQ := QueryOutcome.throws "down",
    contextQ := QueryOutcome.throws "down", decisionQ := QueryOutcome.throws "down" }

/-- Environment for the C7 witness: total backend failure, every
generation call raises. -/
def w7Oracle : Oracle :=
  { retrieveO :=
      { collectionsOk := false, styleQ := QueryOutcome.throws "o",
        contextQ := QueryOutcome.throws "o", decisionQ := QueryOutcome.throws "o" },
    genO := fun _ =>
      { proposalR := Except.error "g", critiqueR := Except.error "g",
        moderatorR := Except.error "g" },
    escGen := Except.error "g" }

/-- Retrieval environment for the C3 counterexample: the style query is
scored with average distance 0.98 (confidence 2), the other two partitions
raise (confidence 0), so the mean confidence is 2/3. -/
def c3Oracle : RetrieveOracle :=
  { collectionsOk := true,
    styleQ := QueryOutcome.result ["Email style sample."] (some [49 / 50]),
    contextQ := QueryOutcome.throws "db", decisionQ := QueryOutcome.throws "db" }

/-- Retrieval environment for the C3 witness: one perfectly scored style
partition, a raising context query, an empty decision result. -/
def w3Oracle : RetrieveOracle :=
  { collectionsOk := true,
    styleQ := QueryOutcome.result ["Recent email."] (some [0]),
    contextQ := QueryOutcome.throws "x",
    decisionQ := QueryOutcome.result [] none }

/-- Retrieval environment for the C4 counterexample: style scored with
average distance 0.004, giving the exact score 99.6 which the code
truncates to 99 while the spec formula rounds to 100. -/
def c4Oracle : RetrieveOracle :=
  { collectionsOk := true,
    styleQ := QueryOutcome.result ["Style snippet."] (some [1 / 250]),
    contextQ := QueryOutcome.throws "x", decisionQ := QueryOutcome.throws "x" }

/-- Retrieval environment for the C4 witness: a scored style partition, an
unscored context partition (no distances key), and an unscored decision
partition (empty distance list). -/
def w4Oracle : RetrieveOracle :=
  { collectionsOk := true,
    styleQ := QueryOutcome.result ["Scored doc."] (some [1 / 2]),
    contextQ := QueryOutcome.result ["Unscored context doc."] none,
    decisionQ := QueryOutcome.result ["Unscored decision doc."] (some []) }

theorem pyInt_eq_of_le_of_lt (q : ℚ) (z : ℤ) (hq : 0 ≤ q) (h1 : (z : ℚ) ≤ q)
    (h2 : q < z + 1) : pyInt q = z := by
  unfold pyInt
  rw [if_pos hq]
  exact Int.floor_eq_iff.mpr ⟨h1, h2⟩

theorem specRound_eq_of_le_of_lt (q : ℚ) (z : ℤ) (h1 : (z : ℚ) ≤ q + 1 / 2)
    (h2 : q + 1 / 2 < z + 1) : specRound q = z := by
  unfold specRound
  exact Int.floor_eq_iff.mpr ⟨h1, h2⟩

theorem decision_node_low_confidence (g : GenResults) (s : TwinState) :
    (decision_node g s).low_confidence = s.low_confidence := rfl

theorem decision_node_overall (g : GenResults) (s : TwinState) :
    (decision_node g s).overall_confidence = s.overall_confidence := rfl

theorem personalize_node_low_confidence (s : TwinState) :
    (personalize_node s).low_confidence = s.low_confidence := rfl

theorem personalize_node_overall (s : TwinState) :
    (personalize_node s).overall_confidence = s.overall_confidence := rfl

theorem escalate_node_escalated (g : Except String String) (s : TwinState) :
    (escalate_node g s).escalated = true := by
  cases g <;> rfl

theorem str_data_append (a b : String) : (a ++ b).data = a.data ++ b.data := rfl

theorem str_eq_empty_iff (a : String) : a = "" ↔ a.data = [] := by
  constructor
  · intro h
    rw [h]
  · intro h
    exact String.ext h

theorem append_ne_empty_left (a b : String) (h : a ≠ "") : a ++ b ≠ "" := by
  intro hc
  apply h
  have hd := (str_eq_empty_iff _).mp hc
  rw [str_data_append] at hd
  exact (str_eq_empty_iff a).mpr (List.append_eq_nil.mp hd).1

theorem isPrefixOf_append (p xs ys : List Char)
    (h : List.isPrefixOf p xs = true) : List.isPrefixOf p (xs ++ ys) = true := by
  induction p generalizing xs with
  | nil => simp [List.isPrefixOf]
  | cons c p ih =>
    cases xs with
    | nil => simp [List.isPrefixOf] at h
    | cons x xs =>
      simp only [List.cons_append, List.isPrefixOf, Bool.and_eq_true, beq_iff_eq] at h ⊢
      exact ⟨h.1, ih xs h.2⟩

theorem listContains_nil_pat (ys : List Char) : listContains ys [] = true := by
  cases ys <;> simp [listContains, List.isPrefixOf]

theorem listContains_append_of_left (xs ys p : List Char)
    (h : listContains xs p = true) : listContains (xs ++ ys) p = true := by
  induction xs with
  | nil =>
    have hp : p = [] := by
      simpa [listContains, List.isEmpty_iff] using h
    subst hp
    exact listContains_nil_pat _
  | cons x xs ih =>
    simp only [listContains, Bool.or_eq_true] at h
    simp only [List.cons_append, listContains, Bool.or_eq_true]
    rcases h with h | h
    · exact Or.inl (isPrefixOf_append _ _ _ h)
    · exact Or.inr (ih h)

theorem listContains_append_of_right (xs ys p : List Char)
    (h : listContains ys p = true) : listContains (xs ++ ys) p = true := by
  induction xs with
  | nil => simpa using h
  | cons x xs ih =>
    simp only [List.cons_append, listContains, Bool.or_eq_true]
    exact Or.inr ih

theorem containsSubstr_append_of_left (a b pat : String)
    (h : containsSubstr a pat = true) : containsSubstr (a ++ b) pat = true :=
  listContains_append_of_left a.data b.data pat.data h

theorem containsSubstr_append_of_right (a b pat : String)
    (h : containsSubstr b pat = true) : containsSubstr (a ++ b) pat = true :=
  listContains_append_of_right a.data b.data pat.data h

/-- C9: in the terminal Generate state a confidence disclaimer is appended
to the synthesized response if and only if the overall confidence is below
70; at 70 or above the synthesis result is returned unchanged. -/
theorem C9_disclaimer_iff (s : TwinState) :
    (generate_node s).final_response
        = s.final_response ++ confidenceNote s.overall_confidence ∧
      (confidenceNote s.overall_confidence = "" ↔ 70 ≤ s.overall_confidence) := by
  constructor
  · rfl
  · unfold confidenceNote
    by_cases h : s.overall_confidence < 70
    · rw [if_pos h]
      constructor
      · intro he
        exact absurd he (append_ne_empty_left _ _ (append_ne_empty_left _ _ (by decide)))
      · intro h70
        exact absurd h (not_lt.mpr h70)
    · rw [if_neg h]
      exact ⟨fun _ => not_lt.mp h, fun _ => rfl⟩

/-- C10: two conversation states that differ only in the action_needed
flag are routed identically after the decision step, and the terminal
final response of the remaining workflow is the same: the flag is never
read by the routing function or by any downstream node. -/
theorem C10_action_flag_invisible (o : Oracle) (fuel k : ℕ) (s : TwinState)
    (b : Bool) :
    route_after_decision { s with action_needed := b } = route_after_decision s ∧
      Option.map TwinState.final_response
          (afterDecide o fuel k { s with action_needed := b })
        = Option.map TwinState.final_response (afterDecide o fuel k s) := by
  refine ⟨rfl, ?_⟩
  cases fuel with
  | zero =>
    simp only [afterDecide]
    rw [show route_after_decision { s with action_needed := b }
        = route_after_decision s from rfl]
    cases hroute : route_after_decision s
    · cases hg : o.escGen <;> simp [escalate_node]
    · simp [generate_node]
    · rfl
  | succ f =>
    simp only [afterDecide]
    rw [show route_after_decision { s with action_needed := b }
        = route_after_decision s from rfl]
    cases hroute : route_after_decision s
    · cases hg : o.escGen <;> simp [escalate_node]
    · simp [generate_node]
    · rfl

theorem c1_retrieve_low :
    (retrieve_node c1Oracle.retrieveO
        (initState "twin_demo" [] "Should we acquire our competitor?")).low_confidence
      = false := by
  have h40 : pyInt ((120 : ℚ) / 3) = 40 := by
    apply pyInt_eq_of_le_of_lt <;> norm_num
  simp [retrieve_node, c1Oracle, partitionResult]
  rw [h40]
  norm_num

theorem c1_step_decision (s : TwinState) (k : ℕ) (h : s.low_confidence = false) :
    step c1Oracle (Node.decision, s, k)
        = (Node.decision, decision_node (c1Oracle.genO k) s, k + 1) ∧
      (decision_node (c1Oracle.genO k) s).low_confidence = false := by
  have hlow : (decision_node (c1Oracle.genO k) s).low_confidence = false := by
    rw [decision_node_low_confidence]
    exact h
  have hfb : (decision_node (c1Oracle.genO k) s).feedback_loop = true := rfl
  refine ⟨?_, hlow⟩
  simp [step, route_after_decision, hlow, hfb]

theorem c1_invariant (n : ℕ) :
    (runN c1Oracle c1Init (n + 2)).1 = Node.decision ∧
      (runN c1Oracle c1Init (n + 2)).2.1.low_confidence = false := by
  induction n with
  | zero =>
    refine ⟨rfl, ?_⟩
    show (personalize_node (retrieve_node c1Oracle.retrieveO
        (initState "twin_demo" [] "Should we acquire our competitor?"))).low_confidence = false
    rw [personalize_node_low_confidence]
    exact c1_retrieve_low
  | succ n ih =>
    rcases hx : runN c1Oracle c1Init (n + 2) with ⟨n1, s1, k1⟩
    rw [hx] at ih
    obtain ⟨h1, h2⟩ := ih
    subst h1
    have hstep := c1_step_decision s1 k1 h2
    have hrun : runN c1Oracle c1Init (n + 1 + 2)
        = step c1Oracle (runN c1Oracle c1Init (n + 2)) := rfl
    rw [hrun, hx, hstep.1]
    exact ⟨rfl, hstep.2⟩

/-- C1: refuted as stated; the code has no loop counter or one-shot flag.
With retrieval confidences high enough to avoid escalation and a critique
that contains "significant risk" on every pass, the router sends the state
machine back into the decision node after every pass: after any number of
additional steps beyond the first two the current node is still `decision`,
so the Decide state is visited unboundedly often (the source comment
"Allow one feedback loop" notwithstanding), not at most twice. -/
theorem C1_decide_unbounded (n : ℕ) :
    (runN c1Oracle c1Init (n + 2)).1 = Node.decision :=
  (c1_invariant n).1

theorem retrieve_low_iff (o : RetrieveOracle) (s : TwinState) :
    (retrieve_node o s).low_confidence
      = decide ((retrieve_node o s).overall_confidence < 30) := by
  unfold retrieve_node
  cases o.collectionsOk
  · rfl
  · rfl

/-- C5 (amended): whenever the post-retrieval overall confidence is below
30 the workflow terminates after four transitions through the Escalate
node (never Generate, regardless of the feedback flag), and the final
response always carries the concrete remediation suggestion ("connect");
when the escalation generation call itself succeeds the response
additionally states the low confidence explicitly ("Limited Data
Available", "Confidence:"). -/
theorem C5_escalation (o : Oracle) (tid q : String) (pf : List (String × String))
    (h : (retrieve_node o.retrieveO (initState tid pf q)).overall_confidence < 30) :
    (runN o (initConfig tid pf q) 4).1 = Node.done ∧
      (runN o (initConfig tid pf q) 4).2.1.escalated = true ∧
      containsSubstr (runN o (initConfig tid pf q) 4).2.1.final_response
          "connect" = true ∧
      ∀ t, o.escGen = Except.ok t →
        containsSubstr (runN o (initConfig tid pf q) 4).2.1.final_response
            "Confidence:" = true ∧
          containsSubstr (runN o (initConfig tid pf q) 4).2.1.final_response
            "Limited Data Available" = true := by
  have hlow : (retrieve_node o.retrieveO (initState tid pf q)).low_confidence = true := by
    rw [retrieve_low_iff]
    exact decide_eq_true h
  have hlow2 : (decision_node (o.genO 0)
      (personalize_node (retrieve_node o.retrieveO (initState tid pf q)))).low_confidence
      = true := by
    rw [decision_node_low_confidence, personalize_node_low_confidence]
    exact hlow
  have e3 : runN o (initConfig tid pf q) 3
      = (Node.escalate,
          decision_node (o.genO 0)
            (personalize_node (retrieve_node o.retrieveO (initState tid pf q))), 1) := by
    show step o (runN o (initConfig tid pf q) 2) = _
    have e2 : runN o (initConfig tid pf q) 2
        = (Node.decision,
            personalize_node (retrieve_node o.retrieveO (initState tid pf q)), 0) := rfl
    rw [e2]
    simp [step, route_after_decision, hlow2]
  have e4 : runN o (initConfig tid pf q) 4
      = (Node.done,
          escalate_node o.escGen
            (decision_node (o.genO 0)
              (personalize_node (retrieve_node o.retrieveO (initState tid pf q)))), 1) := by
    show step o (runN o (initConfig tid pf q) 3) = _
    rw [e3]
    rfl
  rw [e4]
  refine ⟨rfl, escalate_node_escalated _ _, ?_, ?_⟩
  · cases hg : o.escGen with
    | ok t =>
      simp only [escalate_node]
      apply containsSubstr_append_of_left
      apply containsSubstr_append_of_left
      unfold escalationNote
      apply containsSubstr_append_of_right
      decide
    | error e =>
      simp only [escalate_node]
      apply containsSubstr_append_of_left
      apply containsSubstr_append_of_left
      decide
  · intro t ht
    rw [ht]
    simp only [escalate_node]
    constructor
    · apply containsSubstr_append_of_left
      apply containsSubstr_append_of_left
      unfold escalationNote
      apply containsSubstr_append_of_left
      apply containsSubstr_append_of_left
      decide
    · apply containsSubstr_append_of_left
      apply containsSubstr_append_of_left
      unfold escalationNote
      apply containsSubstr_append_of_left
      apply containsSubstr_append_of_left
      decide

/-- C5 counterexample: with total retrieval failure (overall confidence 0,
well below 30) and a failing escalation generation call, the terminal
state is Escalate as claimed, but the final response mentions no
confidence at all (it is the literal inability fallback), so the claimed
"explicit statement of the low confidence" is absent. -/
theorem C5_counterexample :
    (retrieve_node c5Oracle.retrieveO
        (initState "twin_x" [] "What next?")).overall_confidence < 30 ∧
      (runN c5Oracle (initConfig "twin_x" [] "What next?") 4).1 = Node.done ∧
      (runN c5Oracle (initConfig "twin_x" [] "What next?") 4).2.1.escalated = true ∧
      containsSubstr
          (strLower
            (runN c5Oracle (initConfig "twin_x" [] "What next?") 4).2.1.final_response)
          "confidence" = false := by
  refine ⟨by decide, rfl, by decide, by decide⟩

/-- Witness for C5: the amended escalation theorem applied to a concrete
low-confidence environment with a succeeding escalation generation. -/
theorem C5_escalation_witness :
    (runN w5Oracle (initConfig "twin_w" [] "Plan?") 4).1 = Node.done ∧
      (runN w5Oracle (initConfig "twin_w" [] "Plan?") 4).2.1.escalated = true ∧
      containsSubstr (runN w5Oracle (initConfig "twin_w" [] "Plan?") 4).2.1.final_response
          "connect" = true ∧
      containsSubstr (runN w5Oracle (initConfig "twin_w" [] "Plan?") 4).2.1.final_response
          "Confidence:" = true := by
  have h := C5_escalation w5Oracle "twin_w" "Plan?" [] (by decide)
  exact ⟨h.1, h.2.1, h.2.2.1, (h.2.2.2 "Focus on fundamentals." rfl).1⟩

theorem partitionResult_fails (d : ℤ) (q : QueryOutcome)
    (h : queryFails q = true) : partitionResult d q = ("", 0) := by
  cases q with
  | throws e => rfl
  | result docs dists =>
    simp only [queryFails] at h
    simp [partitionResult, h]

/-- C6: the retrieval stage never propagates a failure to the caller: with
the collections open, any partition whose query raised or returned zero
documents ends with empty text and confidence 0; on total failure all
three partitions are empty with all confidences (including overall) 0 and
the low-confidence flag forced; and in every case the low-confidence flag
agrees with the freshly set overall confidence, so the caller always
receives a complete, routable result. -/
theorem C6_retrieval_total (o : RetrieveOracle) (s : TwinState) :
    (o.collectionsOk = true →
        ((queryFails o.styleQ = true →
            (retrieve_node o s).communication_style = "" ∧
              (retrieve_node o s).style_confidence = 0) ∧
          (queryFails o.contextQ = true →
            (retrieve_node o s).business_context = "" ∧
              (retrieve_node o s).context_confidence = 0) ∧
          (queryFails o.decisionQ = true →
            (retrieve_node o s).decision_history = "" ∧
              (retrieve_node o s).decision_confidence = 0))) ∧
      (o.collectionsOk = false →
        (retrieve_node o s).communication_style = "" ∧
          (retrieve_node o s).business_context = "" ∧
          (retrieve_node o s).decision_history = "" ∧
          (retrieve_node o s).style_confidence = 0 ∧
          (retrieve_node o s).context_confidence = 0 ∧
          (retrieve_node o s).decision_confidence = 0 ∧
          (retrieve_node o s).overall_confidence = 0 ∧
          (retrieve_node o s).low_confidence = true) ∧
      (retrieve_node o s).low_confidence
        = decide ((retrieve_node o s).overall_confidence < 30) := by
  refine ⟨?_, ?_, retrieve_low_iff o s⟩
  · intro hc
    refine ⟨fun hq => ?_, fun hq => ?_, fun hq => ?_⟩ <;>
      constructor <;>
        simp [retrieve_node, hc, partitionResult_fails _ _ hq]
  · intro hc
    simp [retrieve_node, hc]

/-- Witness for C6: a run with the style query raising, the context query
returning zero documents and the decision query raising, plus a
total-failure run; each failing partition is zeroed and the total failure
yields the all-zero low-confidence result. -/
theorem C6_retrieval_total_witness :
    ((retrieve_node w6Oracle (initState "twin_w6" [] "q")).communication_style = "" ∧
        (retrieve_node w6Oracle (initState "twin_w6" [] "q")).style_confidence = 0) ∧
      ((retrieve_node w6Oracle (initState "twin_w6" [] "q")).business_context = "" ∧
        (retrieve_node w6Oracle (initState "twin_w6" [] "q")).context_confidence = 0) ∧
      ((retrieve_node w6Oracle (initState "twin_w6" [] "q")).decision_history = "" ∧
        (retrieve_node w6Oracle (initState "twin_w6" [] "q")).decision_confidence = 0) ∧
      (retrieve_node w6bOracle (initState "twin_w6" [] "q")).overall_confidence = 0 ∧
      (retrieve_node w6bOracle (initState "twin_w6" [] "q")).low_confidence = true := by
  have h1 := (C6_retrieval_total w6Oracle (initState "twin_w6" [] "q")).1 rfl
  have h2 := (C6_retrieval_total w6bOracle (initState "twin_w6" [] "q")).2.1 rfl
  exact ⟨h1.1 rfl, h1.2.1 rfl, h1.2.2 rfl, h2.2.2.2.2.2.2.1, h2.2.2.2.2.2.2.2⟩

theorem escalationNote_ne (ov : ℤ) : escalationNote ov ≠ "" := by
  unfold escalationNote
  apply append_ne_empty_left
  apply append_ne_empty_left
  decide

theorem escalate_node_final_ne (g : Except String String) (s : TwinState) :
    (escalate_node g s).final_response ≠ "" := by
  cases g with
  | ok t =>
    exact append_ne_empty_left _ _ (append_ne_empty_left _ _ (escalationNote_ne _))
  | error e =>
    exact append_ne_empty_left _ _ (append_ne_empty_left _ _ (by decide))

theorem escalate_node_proposal (g : Except String String) (s : TwinState) :
    (escalate_node g s).proposal = s.proposal := by
  cases g <;> rfl

theorem escalate_node_critique (g : Except String String) (s : TwinState) :
    (escalate_node g s).critique = s.critique := by
  cases g <;> rfl

theorem c7_inv_step (o : Oracle) (hg : genOk o) (c : Node × TwinState × ℕ)
    (hc : (c.1 = Node.escalate ∨ c.1 = Node.generate ∨ c.1 = Node.done) →
      (c.2.1.final_response ≠ "" ∧ c.2.1.proposal ≠ "" ∧ c.2.1.critique ≠ "")) :
    ((step o c).1 = Node.escalate ∨ (step o c).1 = Node.generate ∨
        (step o c).1 = Node.done) →
      ((step o c).2.1.final_response ≠ "" ∧ (step o c).2.1.proposal ≠ "" ∧
        (step o c).2.1.critique ≠ "") := by
  obtain ⟨node, s, k⟩ := c
  cases node with
  | retrieve => intro h; rcases h with h | h | h <;> simp [step] at h
  | personalize => intro h; rcases h with h | h | h <;> simp [step] at h
  | decision =>
    intro _
    have hp : (decision_node (o.genO k) s).proposal ≠ "" := by
      cases hx : (o.genO k).proposalR with
      | ok t =>
        have ht := hg.1 k t hx
        simpa [decision_node, hx] using ht
      | error e =>
        simp only [decision_node, hx]
        decide
    have hcr : (decision_node (o.genO k) s).critique ≠ "" := by
      cases hx : (o.genO k).critiqueR with
      | ok t =>
        have ht := hg.2.1 k t hx
        simpa [decision_node, hx] using ht
      | error e =>
        simp only [decision_node, hx]
        decide
    have hf : (decision_node (o.genO k) s).final_response ≠ "" := by
      cases hx : (o.genO k).moderatorR with
      | ok t =>
        have ht := hg.2.2.1 k t hx
        simpa [decision_node, hx] using ht
      | error e =>
        simp only [decision_node, hx]
        decide
    cases hr : route_after_decision (decision_node (o.genO k) s) <;>
      simp [step, hr] <;> exact ⟨hf, hp, hcr⟩
  | escalate =>
    intro _
    have hc2 := hc (Or.inl rfl)
    exact ⟨escalate_node_final_ne _ _,
      by rw [step, escalate_node_proposal]; exact hc2.2.1,
      by rw [step, escalate_node_critique]; exact hc2.2.2⟩
  | generate =>
    intro _
    have hc2 := hc (Or.inr (Or.inl rfl))
    exact ⟨append_ne_empty_left _ _ hc2.1, hc2.2.1, hc2.2.2⟩
  | done =>
    intro _
    exact hc (Or.inr (Or.inr rfl))

/-- C7: under the environment assumption that successful generation calls
return non-empty text, every terminal configuration of the workflow
(including every combination of generation failures, where literal
fallback strings are substituted) carries a non-empty final response, and
non-empty proposal and critique.  -/
theorem C7_nonempty_final (o : Oracle) (tid q : String)
    (pf : List (String × String)) (n : ℕ) (hg : genOk o)
    (hdone : (runN o (initConfig tid pf q) n).1 = Node.done) :
    (runN o (initConfig tid pf q) n).2.1.final_response ≠ "" ∧
      (runN o (initConfig tid pf q) n).2.1.proposal ≠ "" ∧
      (runN o (initConfig tid pf q) n).2.1.critique ≠ "" := by
  have hinv : ∀ m : ℕ,
      ((runN o (initConfig tid pf q) m).1 = Node.escalate ∨
          (runN o (initConfig tid pf q) m).1 = Node.generate ∨
          (runN o (initConfig tid pf q) m).1 = Node.done) →
        ((runN o (initConfig tid pf q) m).2.1.final_response ≠ "" ∧
          (runN o (initConfig tid pf q) m).2.1.proposal ≠ "" ∧
          (runN o (initConfig tid pf q) m).2.1.critique ≠ "") := by
    intro m
    induction m with
    | zero => intro h; rcases h with h | h | h <;> simp [runN, initConfig] at h
    | succ m ih => exact c7_inv_step o hg (runN o (initConfig tid pf q) m) ih
  exact hinv n (Or.inr (Or.inr hdone))

/-- Witness for C7: total backend failure (every generation call raises);
the run terminates through Escalate after four transitions and the final
response is the non-empty literal fallback. -/
theorem C7_nonempty_final_witness :
    genOk w7Oracle ∧
      (runN w7Oracle (initConfig "twin_w7" [] "q7") 4).1 = Node.done ∧
      (runN w7Oracle (initConfig "twin_w7" [] "q7") 4).2.1.final_response ≠ "" := by
  have hg : genOk w7Oracle := by
    refine ⟨?_, ?_, ?_, ?_⟩
    · intro k t h
      simp [w7Oracle] at h
    · intro k t h
      simp [w7Oracle] at h
    · intro k t h
      simp [w7Oracle] at h
    · intro t h
      simp [w7Oracle] at h
  have hdone : (runN w7Oracle (initConfig "twin_w7" [] "q7") 4).1 = Node.done := by
    decide
  have h := C7_nonempty_final w7Oracle "twin_w7" "q7" [] 4 hg hdone
  exact ⟨hg, hdone, h.1⟩

theorem pyInt_nonneg_eq_floor (q : ℚ) (h : 0 ≤ q) : pyInt q = ⌊q⌋ := by
  unfold pyInt
  rw [if_pos h]

theorem pyInt_bounds (q : ℚ) (h0 : 0 ≤ q) (h100 : q ≤ 100) :
    0 ≤ pyInt q ∧ pyInt q ≤ 100 := by
  rw [pyInt_nonneg_eq_floor q h0]
  constructor
  · exact Int.le_floor.mpr (by exact_mod_cast h0)
  · calc ⌊q⌋ ≤ ⌊(100 : ℚ)⌋ := Int.floor_le_floor h100
      _ = 100 := by norm_num

theorem ratAvg_nonneg (l : List ℚ) (h : ∀ d ∈ l, 0 ≤ d) : 0 ≤ ratAvg l := by
  unfold ratAvg
  exact div_nonneg (List.sum_nonneg h) (by positivity)

theorem partConf_bounds (dflt : ℤ) (q : QueryOutcome) (hd : distsNonneg q)
    (hdl : 0 ≤ dflt) (hdr : dflt ≤ 100) :
    0 ≤ (partitionResult dflt q).2 ∧ (partitionResult dflt q).2 ≤ 100 := by
  cases q with
  | throws e => exact ⟨by norm_num [partitionResult], by norm_num [partitionResult]⟩
  | result docs dists =>
    by_cases hdoc : docs.isEmpty
    · norm_num [partitionResult, hdoc]
    · cases dists with
      | none =>
        simp only [partitionResult, if_neg hdoc]
        exact ⟨hdl, hdr⟩
      | some l =>
        cases l with
        | nil =>
          simp only [partitionResult, if_neg hdoc]
          exact ⟨hdl, hdr⟩
        | cons d ds =>
          have havg : 0 ≤ ratAvg (d :: ds) := ratAvg_nonneg _ hd
          have hmin0 : 0 ≤ min (ratAvg (d :: ds)) 1 := le_min havg zero_le_one
          have hmin1 : min (ratAvg (d :: ds)) 1 ≤ 1 := min_le_right _ _
          have hx0 : 0 ≤ (1 - min (ratAvg (d :: ds)) 1) * 100 := by nlinarith
          have hx100 : (1 - min (ratAvg (d :: ds)) 1) * 100 ≤ 100 := by nlinarith
          simp only [partitionResult, if_neg hdoc]
          exact pyInt_bounds _ hx0 hx100

theorem retrieve_fields (o : RetrieveOracle) (s : TwinState)
    (hc : o.collectionsOk = true) :
    (retrieve_node o s).style_confidence = (partitionResult 50 o.styleQ).2 ∧
      (retrieve_node o s).context_confidence = (partitionResult 40 o.contextQ).2 ∧
      (retrieve_node o s).decision_confidence = (partitionResult 30 o.decisionQ).2 ∧
      (retrieve_node o s).overall_confidence
        = pyInt ((((partitionResult 50 o.styleQ).2 + (partitionResult 40 o.contextQ).2
            + (partitionResult 30 o.decisionQ).2 : ℤ) : ℚ) / 3) := by
  unfold retrieve_node
  rw [hc]
  exact ⟨rfl, rfl, rfl, rfl⟩

/-- C3 (amended): assuming non-negative distance scores, every confidence
field set by the retrieval stage is an integer in [0, 100]; the overall
confidence equals the FLOOR of the unweighted mean of the three partition
confidences (Python `int()` truncation), not the rounded mean claimed by
the spec. -/
theorem C3_confidence_bounds_floor (o : RetrieveOracle) (s : TwinState)
    (h1 : distsNonneg o.styleQ) (h2 : distsNonneg o.contextQ)
    (h3 : distsNonneg o.decisionQ) :
    (0 ≤ (retrieve_node o s).style_confidence ∧
        (retrieve_node o s).style_confidence ≤ 100) ∧
      (0 ≤ (retrieve_node o s).context_confidence ∧
        (retrieve_node o s).context_confidence ≤ 100) ∧
      (0 ≤ (retrieve_node o s).decision_confidence ∧
        (retrieve_node o s).decision_confidence ≤ 100) ∧
      (0 ≤ (retrieve_node o s).overall_confidence ∧
        (retrieve_node o s).overall_confidence ≤ 100) ∧
      (retrieve_node o s).overall_confidence
        = ⌊(((retrieve_node o s).style_confidence
            + (retrieve_node o s).context_confidence
            + (retrieve_node o s).decision_confidence : ℤ) : ℚ) / 3⌋ := by
  cases hcol : o.collectionsOk with
  | false =>
    norm_num [retrieve_node, hcol]
  | true =>
    obtain ⟨e1, e2, e3, e4⟩ := retrieve_fields o s hcol
    rw [e1, e2, e3, e4]
    have b1 := partConf_bounds 50 o.styleQ h1 (by norm_num) (by norm_num)
    have b2 := partConf_bounds 40 o.contextQ h2 (by norm_num) (by norm_num)
    have b3 := partConf_bounds 30 o.decisionQ h3 (by norm_num) (by norm_num)
    have hsum0 : (0 : ℤ) ≤ (partitionResult 50 o.styleQ).2
        + (partitionResult 40 o.contextQ).2 + (partitionResult 30 o.decisionQ).2 := by
      linarith [b1.1, b2.1, b3.1]
    have hsum300 : (partitionResult 50 o.styleQ).2
        + (partitionResult 40 o.contextQ).2 + (partitionResult 30 o.decisionQ).2
        ≤ (300 : ℤ) := by
      linarith [b1.2, b2.2, b3.2]
    have hq0 : 0 ≤ (((partitionResult 50 o.styleQ).2 + (partitionResult 40 o.contextQ).2
        + (partitionResult 30 o.decisionQ).2 : ℤ) : ℚ) / 3 := by
      apply div_nonneg _ (by norm_num)
      exact_mod_cast hsum0
    have hq100 : (((partitionResult 50 o.styleQ).2 + (partitionResult 40 o.contextQ).2
        + (partitionResult 30 o.decisionQ).2 : ℤ) : ℚ) / 3 ≤ 100 := by
      rw [div_le_iff₀ (by norm_num : (0 : ℚ) < 3)]
      calc (((partitionResult 50 o.styleQ).2 + (partitionResult 40 o.contextQ).2
            + (partitionResult 30 o.decisionQ).2 : ℤ) : ℚ)
          ≤ ((300 : ℤ) : ℚ) := by exact_mod_cast hsum300
        _ = 100 * 3 := by norm_num
    exact ⟨b1, b2, b3, pyInt_bounds _ hq0 hq100, pyInt_nonneg_eq_floor _ hq0⟩

/-- C3 counterexample: style confidence 2 (average distance 0.98), the
other partitions raise, so the partition mean is 2/3; the code stores
overall confidence 0 (truncation) while the spec formula rounds 2/3 to 1. -/
theorem C3_counterexample :
    (retrieve_node c3Oracle (initState "twin_c3" [] "q")).style_confidence = 2 ∧
      (retrieve_node c3Oracle (initState "twin_c3" [] "q")).context_confidence = 0 ∧
      (retrieve_node c3Oracle (initState "twin_c3" [] "q")).decision_confidence = 0 ∧
      (retrieve_node c3Oracle (initState "twin_c3" [] "q")).overall_confidence = 0 ∧
      specRound ((((retrieve_node c3Oracle (initState "twin_c3" [] "q")).style_confidence
          + (retrieve_node c3Oracle (initState "twin_c3" [] "q")).context_confidence
          + (retrieve_node c3Oracle (initState "twin_c3" [] "q")).decision_confidence
          : ℤ) : ℚ) / 3) = 1 ∧
      (retrieve_node c3Oracle (initState "twin_c3" [] "q")).overall_confidence
        ≠ specRound ((((retrieve_node c3Oracle (initState "twin_c3" [] "q")).style_confidence
            + (retrieve_node c3Oracle (initState "twin_c3" [] "q")).context_confidence
            + (retrieve_node c3Oracle (initState "twin_c3" [] "q")).decision_confidence
            : ℤ) : ℚ) / 3) := by
  obtain ⟨e1, e2, e3, e4⟩ := retrieve_fields c3Oracle (initState "twin_c3" [] "q") rfl
  have hp50 : (partitionResult 50 c3Oracle.styleQ).2 = 2 := by
    show pyInt ((1 - min (ratAvg [(49 : ℚ) / 50]) 1) * 100) = 2
    have hm : ratAvg [(49 : ℚ) / 50] = 49 / 50 := by simp [ratAvg]
    rw [hm, min_eq_left (by norm_num : (49 : ℚ) / 50 ≤ 1)]
    have he : (1 - (49 : ℚ) / 50) * 100 = 2 := by norm_num
    rw [he]
    apply pyInt_eq_of_le_of_lt <;> norm_num
  have Hs : (retrieve_node c3Oracle (initState "twin_c3" [] "q")).style_confidence = 2 := by
    rw [e1]
    exact hp50
  have Hc : (retrieve_node c3Oracle (initState "twin_c3" [] "q")).context_confidence = 0 := by
    rw [e2]
    rfl
  have Hd : (retrieve_node c3Oracle (initState "twin_c3" [] "q")).decision_confidence = 0 := by
    rw [e3]
    rfl
  have Ho : (retrieve_node c3Oracle (initState "twin_c3" [] "q")).overall_confidence = 0 := by
    rw [e4, hp50]
    show pyInt ((((2 : ℤ) + 0 + 0 : ℤ) : ℚ) / 3) = 0
    apply pyInt_eq_of_le_of_lt <;> norm_num
  have Hspec : specRound ((((retrieve_node c3Oracle
      (initState "twin_c3" [] "q")).style_confidence
      + (retrieve_node c3Oracle (initState "twin_c3" [] "q")).context_confidence
      + (retrieve_node c3Oracle (initState "twin_c3" [] "q")).decision_confidence
      : ℤ) : ℚ) / 3) = 1 := by
    rw [Hs, Hc, Hd]
    apply specRound_eq_of_le_of_lt <;> norm_num
  refine ⟨Hs, Hc, Hd, Ho, Hspec, ?_⟩
  rw [Ho, Hspec]
  decide

/-- Witness for C3: the amended bounds-and-floor theorem applied to a
concrete environment with one perfectly scored partition, one raising
query and one empty result. -/
theorem C3_witness :
    (0 ≤ (retrieve_node w3Oracle (initState "twin_w3" [] "q")).style_confidence ∧
        (retrieve_node w3Oracle (initState "twin_w3" [] "q")).style_confidence ≤ 100) ∧
      (0 ≤ (retrieve_node w3Oracle (initState "twin_w3" [] "q")).overall_confidence ∧
        (retrieve_node w3Oracle (initState "twin_w3" [] "q")).overall_confidence ≤ 100) ∧
      (retrieve_node w3Oracle (initState "twin_w3" [] "q")).overall_confidence
        = ⌊(((retrieve_node w3Oracle (initState "twin_w3" [] "q")).style_confidence
            + (retrieve_node w3Oracle (initState "twin_w3" [] "q")).context_confidence
            + (retrieve_node w3Oracle (initState "twin_w3" [] "q")).decision_confidence
            : ℤ) : ℚ) / 3⌋ := by
  have hs : distsNonneg w3Oracle.styleQ := by
    show ∀ d ∈ [(0 : ℚ)], 0 ≤ d
    intro d hd
    rw [List.mem_singleton] at hd
    rw [hd]
  have h := C3_confidence_bounds_floor w3Oracle (initState "twin_w3" [] "q")
    hs trivial trivial
  exact ⟨h.1, h.2.2.2.1, h.2.2.2.2⟩

theorem partitionResult_scored (dflt : ℤ) (docs : List String) (d : ℚ) (ds : List ℚ)
    (hne : docs ≠ []) :
    (partitionResult dflt (QueryOutcome.result docs (some (d :: ds)))).2
      = pyInt ((1 - min (ratAvg (d :: ds)) 1) * 100) := by
  cases docs with
  | nil => exact absurd rfl hne
  | cons a t => rfl

theorem partitionResult_unscored (dflt : ℤ) (docs : List String)
    (dists : Option (List ℚ)) (hne : docs ≠ []) (hns : noScores dists = true) :
    (partitionResult dflt (QueryOutcome.result docs dists)).2 = dflt := by
  cases docs with
  | nil => exact absurd rfl hne
  | cons a t =>
    cases dists with
    | none => rfl
    | some l =>
      cases l with
      | nil => rfl
      | cons x xs => exact absurd hns (by simp [noScores])

/-- C4 (amended): with the collections open, a partition query that returns
documents with a non-empty distance list gets confidence
`int((1 - min(avgDistance, 1.0)) * 100)` where `int` TRUNCATES (not the
rounding the spec states); a partition query that returns documents without
usable distances gets the fixed heuristic default of its partition (style
50, context 40, decision 30), each lying in the range 30..50. -/
theorem C4_partition_confidence (o : RetrieveOracle) (s : TwinState)
    (hc : o.collectionsOk = true) :
    ((∀ docs d ds, o.styleQ = QueryOutcome.result docs (some (d :: ds)) → docs ≠ [] →
        (retrieve_node o s).style_confidence
          = pyInt ((1 - min (ratAvg (d :: ds)) 1) * 100)) ∧
      (∀ docs dists, o.styleQ = QueryOutcome.result docs dists → docs ≠ [] →
        noScores dists = true →
        (retrieve_node o s).style_confidence = 50 ∧
          30 ≤ (retrieve_node o s).style_confidence ∧
          (retrieve_node o s).style_confidence ≤ 50)) ∧
    ((∀ docs d ds, o.contextQ = QueryOutcome.result docs (some (d :: ds)) → docs ≠ [] →
        (retrieve_node o s).context_confidence
          = pyInt ((1 - min (ratAvg (d :: ds)) 1) * 100)) ∧
      (∀ docs dists, o.contextQ = QueryOutcome.result docs dists → docs ≠ [] →
        noScores dists = true →
        (retrieve_node o s).context_confidence = 40 ∧
          30 ≤ (retrieve_node o s).context_confidence ∧
          (retrieve_node o s).context_confidence ≤ 50)) ∧
    ((∀ docs d ds, o.decisionQ = QueryOutcome.result docs (some (d :: ds)) → docs ≠ [] →
        (retrieve_node o s).decision_confidence
          = pyInt ((1 - min (ratAvg (d :: ds)) 1) * 100)) ∧
      (∀ docs dists, o.decisionQ = QueryOutcome.result docs dists → docs ≠ [] →
        noScores dists = true →
        (retrieve_node o s).decision_confidence = 30 ∧
          30 ≤ (retrieve_node o s).decision_confidence ∧
          (retrieve_node o s).decision_confidence ≤ 50)) := by
  obtain ⟨e1, e2, e3, e4⟩ := retrieve_fields o s hc
  refine ⟨⟨?_, ?_⟩, ⟨?_, ?_⟩, ⟨?_, ?_⟩⟩
  · intro docs d ds heq hne
    rw [e1, heq]
    exact partitionResult_scored 50 docs d ds hne
  · intro docs dists heq hne hns
    rw [e1, heq, partitionResult_unscored 50 docs dists hne hns]
    exact ⟨rfl, by decide, by decide⟩
  · intro docs d ds heq hne
    rw [e2, heq]
    exact partitionResult_scored 40 docs d ds hne
  · intro docs dists heq hne hns
    rw [e2, heq, partitionResult_unscored 40 docs dists hne hns]
    exact ⟨rfl, by decide, by decide⟩
  · intro docs d ds heq hne
    rw [e3, heq]
    exact partitionResult_scored 30 docs d ds hne
  · intro docs dists heq hne hns
    rw [e3, heq, partitionResult_unscored 30 docs dists hne hns]
    exact ⟨rfl, by decide, by decide⟩

/-- C4 counterexample: with a single style distance of 0.004 the exact
score is 99.6; the code stores 99 (truncation) while the spec formula
`round((1 - min(avg, 1.0)) * 100)` yields 100. -/
theorem C4_counterexample :
    (retrieve_node c4Oracle (initState "twin_c4" [] "q")).style_confidence = 99 ∧
      specRound ((1 - min (ratAvg [(1 : ℚ) / 250]) 1) * 100) = 100 ∧
      (retrieve_node c4Oracle (initState "twin_c4" [] "q")).style_confidence
        ≠ specRound ((1 - min (ratAvg [(1 : ℚ) / 250]) 1) * 100) := by
  have hm : ratAvg [(1 : ℚ) / 250] = 1 / 250 := by simp [ratAvg]
  have Hs : (retrieve_node c4Oracle (initState "twin_c4" [] "q")).style_confidence = 99 := by
    rw [(retrieve_fields c4Oracle (initState "twin_c4" [] "q") rfl).1]
    show pyInt ((1 - min (ratAvg [(1 : ℚ) / 250]) 1) * 100) = 99
    rw [hm, min_eq_left (by norm_num : (1 : ℚ) / 250 ≤ 1)]
    apply pyInt_eq_of_le_of_lt <;> norm_num
  have Hr : specRound ((1 - min (ratAvg [(1 : ℚ) / 250]) 1) * 100) = 100 := by
    rw [hm, min_eq_left (by norm_num : (1 : ℚ) / 250 ≤ 1)]
    apply specRound_eq_of_le_of_lt <;> norm_num
  refine ⟨Hs, Hr, ?_⟩
  rw [Hs, Hr]
  decide

/-- Witness for C4: the partition-confidence theorem applied to a concrete
environment with a scored style partition, an unscored context partition
(no distances key) and an unscored decision partition (empty distance
list). -/
theorem C4_witness :
    (retrieve_node w4Oracle (initState "twin_w4" [] "q")).style_confidence
        = pyInt ((1 - min (ratAvg [(1 : ℚ) / 2]) 1) * 100) ∧
      (retrieve_node w4Oracle (initState "twin_w4" [] "q")).context_confidence = 40 ∧
      30 ≤ (retrieve_node w4Oracle (initState "twin_w4" [] "q")).context_confidence ∧
      (retrieve_node w4Oracle (initState "twin_w4" [] "q")).context_confidence ≤ 50 ∧
      (retrieve_node w4Oracle (initState "twin_w4" [] "q")).decision_confidence = 30 ∧
      30 ≤ (retrieve_node w4Oracle (initState "twin_w4" [] "q")).decision_confidence ∧
      (retrieve_node w4Oracle (initState "twin_w4" [] "q")).decision_confidence ≤ 50 := by
  have h := C4_partition_confidence w4Oracle (initState "twin_w4" [] "q") rfl
  have hsty := h.1.1 ["Scored doc."] ((1 : ℚ) / 2) [] rfl (by decide)
  have hctx := h.2.1.2 ["Unscored context doc."] none rfl (by decide) rfl
  have hdec := h.2.2.2 ["Unscored decision doc."] (some []) rfl (by decide) rfl
  exact ⟨hsty, hctx.1, hctx.2.1, hctx.2.2, hdec.1, hdec.2.1, hdec.2.2⟩

theorem lookup_append (xs ys : RecMap) (q : String) :
    (xs ++ ys).lookup q
      = match xs.lookup q with
        | some v => some v
        | none => ys.lookup q := by
  induction xs with
  | nil => rfl
  | cons kv t ih =>
    obtain ⟨k, v⟩ := kv
    cases hqk : (q == k) <;> simp [List.lookup, hqk, ih]

theorem lookup_cons (q k v2 : String) (rest : RecMap) :
    List.lookup q ((k, v2) :: rest) = if q = k then some v2 else List.lookup q rest := by
  by_cases h : q = k
  · subst h
    simp [List.lookup]
  · simp [List.lookup, beq_eq_false_iff_ne.mpr h, h]

theorem lookup_map_single (m : RecMap) (p v q : String) :
    (m.map (fun kv =>
        match List.lookup kv.1 [(p, v)] with
        | some w2 => (kv.1, w2)
        | none => kv)).lookup q
      = Option.map (fun w => if q = p then v else w) (m.lookup q) := by
  induction m with
  | nil => rfl
  | cons kv t ih =>
    obtain ⟨k, w⟩ := kv
    have hf : (match List.lookup (k, w).1 [(p, v)] with
        | some w2 => ((k, w).1, w2)
        | none => (k, w)) = (k, if k = p then v else w) := by
      by_cases hkp : k = p
      · subst hkp
        simp [List.lookup]
      · simp [List.lookup, beq_eq_false_iff_ne.mpr hkp, hkp]
    rw [List.map_cons, hf, lookup_cons, lookup_cons]
    by_cases hqk : q = k
    · subst hqk
      simp
    · simp [hqk, ih]

theorem merge_single_lookup (m : RecMap) (p v q : String) :
    (merge_dicts m [(p, v)]).lookup q
      = if q = p then some v else m.lookup q := by
  unfold merge_dicts
  rw [lookup_append, lookup_map_single]
  by_cases hqp : q = p
  · subst hqp
    cases hm : m.lookup q with
    | some w => simp [hm]
    | none => simp [hm, List.filter, List.lookup]
  · cases hm : m.lookup q with
    | some w => simp [hm, hqp]
    | none =>
      cases hmp : m.lookup p <;>
        simp [hm, hmp, List.filter, List.lookup, hqp,
          beq_eq_false_iff_ne.mpr hqp]

theorem find?_isSome_of_mem (p : String → Bool) (l : List String) (a : String)
    (ha : a ∈ l) (hpa : p a = true) : (l.find? p).isSome = true := by
  simp only [List.find?_isSome]
  exact ⟨a, ha, hpa⟩

theorem find?_eq_none_of_all (p : String → Bool) (l : List String)
    (h : ∀ a ∈ l, p a = false) : l.find? p = none := by
  simp only [List.find?_eq_none]
  intro x hx
  simp [h x hx]

theorem roundStep_lookup_isSome (o : MeetingOracle) (turn : ℕ) (a : String) :
    ∀ (agents : List String) (recs : RecMap),
      (a ∈ agents ∨ (recs.lookup a).isSome = true) →
        ((roundStep o agents turn recs).lookup a).isSome = true := by
  intro agents
  induction agents with
  | nil =>
    intro recs h
    rcases h with h | h
    · cases h
    · exact h
  | cons x t ih =>
    intro recs h
    show ((roundStep o t turn (merge_dicts recs [(x, agentRec o x turn)])).lookup a).isSome
      = true
    apply ih
    rcases h with h | h
    · rcases List.mem_cons.mp h with h | h
      · subst h
        right
        rw [merge_single_lookup]
        simp
      · exact Or.inl h
    · right
      rw [merge_single_lookup]
      by_cases hax : a = x
      · simp [hax]
      · simp [hax, h]

/-- C2 (amended): with `turns = 0` and a valid agent list the run does not
error, but it executes exactly ONE recommendation round (the round runs
before the turn check: the loop is a do-while), making one per-persona
node execution per agent, and the persisted mapping is the returned
recommendations mapping, which contains an entry for every agent — it is
not empty. -/
theorem C2_turns_zero_one_round (o : MeetingOracle) (agents : List String)
    (hne : agents ≠ []) (hv : ∀ a ∈ agents, agentValid a = true) :
    (run_meeting o 0 agents).error = none ∧
      (run_meeting o 0 agents).rounds = 1 ∧
      (run_meeting o 0 agents).recommendCalls = agents.length ∧
      (run_meeting o 0 agents).persisted
        = some (run_meeting o 0 agents).recommendations ∧
      ∀ a ∈ agents, ((run_meeting o 0 agents).recommendations.lookup a).isSome = true := by
  have hemp : agents.isEmpty = false := by
    cases agents with
    | nil => exact absurd rfl hne
    | cons x t => rfl
  have hfind : agents.find? (fun a => !agentValid a) = none := by
    apply find?_eq_none_of_all
    intro a ha
    rw [hv a ha]
    rfl
  have hrm : run_meeting o 0 agents
      = { error := none, rounds := 1, recommendCalls := 0 + agents.length,
          persisted := some (roundStep o agents 0 []),
          recommendations := roundStep o agents 0 [] } := by
    unfold run_meeting
    rw [hemp]
    simp only [Bool.false_eq_true, if_false, hfind]
    rfl
  rw [hrm]
  refine ⟨rfl, rfl, by simp, rfl, ?_⟩
  intro a ha
  exact roundStep_lookup_isSome o 0 a agents [] (Or.inl ha)

/-- C2 counterexample: with `turns = 0` and one agent the orchestrator
still makes one per-persona generation call and persists a one-entry
mapping, refuting "zero recommendation rounds" and "empty mapping". -/
theorem C2_counterexample :
    (run_meeting (fun _ _ => Except.ok "Ship the beta in Q1.") 0
        ["Sam_Altman"]).recommendCalls = 1 ∧
      (run_meeting (fun _ _ => Except.ok "Ship the beta in Q1.") 0
          ["Sam_Altman"]).recommendations
        = [("Sam_Altman", "Ship the beta in Q1.")] ∧
      (run_meeting (fun _ _ => Except.ok "Ship the beta in Q1.") 0
          ["Sam_Altman"]).persisted
        = some [("Sam_Altman", "Ship the beta in Q1.")] ∧
      (run_meeting (fun _ _ => Except.ok "Ship the beta in Q1.") 0
          ["Sam_Altman"]).recommendations ≠ [] := by
  refine ⟨by decide, by decide, by decide, by decide⟩

/-- Witness for C2: the amended theorem applied to a concrete single-agent
run with a failing generator (the fallback text is still recorded). -/
theorem C2_witness :
    (run_meeting (fun _ _ => Except.error "quota") 0 ["Jensen_Huang"]).error = none ∧
      (run_meeting (fun _ _ => Except.error "quota") 0 ["Jensen_Huang"]).rounds = 1 ∧
      (run_meeting (fun _ _ => Except.error "quota") 0 ["Jensen_Huang"]).recommendCalls = 1 ∧
      ((run_meeting (fun _ _ => Except.error "quota") 0
          ["Jensen_Huang"]).recommendations.lookup "Jensen_Huang").isSome = true := by
  have h := C2_turns_zero_one_round (fun _ _ => Except.error "quota") ["Jensen_Huang"]
    (by decide) (by decide)
  exact ⟨h.1, h.2.1, h.2.2.1, h.2.2.2.2 "Jensen_Huang" (by decide)⟩

/-- C8: a meeting request whose agent list contains an identifier that is
neither a PERSONAS key nor twin_-prefixed is rejected during node
construction, before the graph is invoked: the result is a validation
error with zero per-persona node executions (hence zero generation calls),
nothing persisted and no partial recommendations. -/
theorem C8_reject_unknown (o : MeetingOracle) (turns : ℕ) (agents : List String)
    (bad : String) (hmem : bad ∈ agents) (hbad : agentValid bad = false) :
    ((run_meeting o turns agents).error).isSome = true ∧
      (run_meeting o turns agents).recommendCalls = 0 ∧
      (run_meeting o turns agents).persisted = none ∧
      (run_meeting o turns agents).recommendations = [] := by
  have hemp : agents.isEmpty = false := by
    cases agents with
    | nil => cases hmem
    | cons x t => rfl
  have hfind : (agents.find? (fun a => !agentValid a)).isSome = true := by
    apply find?_isSome_of_mem _ _ bad hmem
    rw [hbad]
    rfl
  obtain ⟨b, hb⟩ := Option.isSome_iff_exists.mp hfind
  have hrm : run_meeting o turns agents
      = { error := some ("Invalid agent identifier: " ++ b), rounds := 0,
          recommendCalls := 0, persisted := none, recommendations := [] } := by
    unfold run_meeting
    rw [hemp]
    simp only [Bool.false_eq_true, if_false, hb]
  rw [hrm]
  exact ⟨rfl, rfl, rfl, rfl⟩

/-- Witness for C8: the unknown identifier "nonexistent_agent" inside an
otherwise valid agent list is rejected with zero node executions and
nothing persisted. -/
theorem C8_witness :
    agentValid "nonexistent_agent" = false ∧
      ((run_meeting (fun _ _ => Except.ok "r") 1
          ["Sam_Altman", "nonexistent_agent"]).error).isSome = true ∧
      (run_meeting (fun _ _ => Except.ok "r") 1
          ["Sam_Altman", "nonexistent_agent"]).recommendCalls = 0 ∧
      (run_meeting (fun _ _ => Except.ok "r") 1
          ["Sam_Altman", "nonexistent_agent"]).persisted = none := by
  have h := C8_reject_unknown (fun _ _ => Except.ok "r") 1
    ["Sam_Altman", "nonexistent_agent"] "nonexistent_agent" (by decide) (by decide)
  exact ⟨by decide, h.1, h.2.1, h.2.2.1⟩
